import Mathlib

/-!
Shallow embedding of the weather acquisition and caching subsystem of the
`guided-energy-backend` repository.

The definitions below translate, function by function, the TypeScript code in
`src/services/weather-scraper.service.ts`, `src/services/favorites.service.ts`,
`src/controllers/favorites.controller.ts`, the favorites route validation
schema and the SQLite schema (`user_favorites` has `UNIQUE(user_id, city_id)`,
`cities.name` is `UNIQUE`).

Conventions used throughout:
* JavaScript strings are Lean `String`s; the JS string operations used by the
  code (`toLowerCase`, `toUpperCase`, `trim`, `replace(/[^\d-]/g, "")`,
  `parseInt`) are modelled explicitly on the character list.
* A fetched page is modelled as a function from CSS selector to the text that
  `$(selector).first().text()` would return (`""` when nothing matches, which
  is exactly what cheerio returns and is falsy in JS, and covers the
  puppeteer path where a missing element or empty `textContent` is skipped).
* Network and storage failures are injected through explicit oracles;
  a throwing `await` is an `Except.error`.
* Timestamps are integer seconds; `datetime('now', '-30 minutes')` is
  `now - 1800`.
-/

/-- Model of JavaScript `String.prototype.toLowerCase` (ASCII, which is all the
code compares: city names and selector text). -/
def jsToLower (s : String) : String :=
  String.mk (s.data.map Char.toLower)

/-- Model of JavaScript `String.prototype.toUpperCase`. -/
def jsToUpper (s : String) : String :=
  String.mk (s.data.map Char.toUpper)

/-- Whitespace as recognised by JavaScript `String.prototype.trim`. -/
def jsIsWs (c : Char) : Bool :=
  c == ' ' || c == '\t' || c == '\n' || c == '\r'

/-- Model of JavaScript `String.prototype.trim`. -/
def jsTrim (s : String) : String :=
  String.mk (((s.data.dropWhile jsIsWs).reverse.dropWhile jsIsWs).reverse)

/-- Model of `text.replace(/[^\d-]/g, "")`: keep only decimal digits and the
minus sign. -/
def stripNonTempChars (s : String) : String :=
  String.mk (s.data.filter (fun c => c.isDigit || c == '-'))

/-- Value of a digit list read as a decimal number. -/
def digitsVal (ds : List Char) : Nat :=
  ds.foldl (fun acc c => acc * 10 + (c.toNat - 48)) 0

/-- Model of JavaScript `parseInt` applied to a string that contains only
digits and minus signs (which is what `stripNonTempChars` produces):
an optional leading minus sign, then the longest digit prefix; `none`
(JS `NaN`) when that prefix is empty. -/
def parseIntJS (s : String) : Option Int :=
  match s.data with
  | '-' :: rest =>
      let ds := rest.takeWhile Char.isDigit
      if ds.isEmpty then none else some (-(digitsVal ds : Int))
  | l =>
      let ds := l.takeWhile Char.isDigit
      if ds.isEmpty then none else some (digitsVal ds : Int)

/-- A fetched page: `text sel` is what `$(sel).first().text()` returns
(empty string when the selector matches nothing). -/
structure Page where
  text : String → String

/-- `TEMP_SELECTORS` from `weather-scraper.service.ts`. -/
def TEMP_SELECTORS : List String :=
  ["[data-testid=\"TemperatureValue\"]",
   ".CurrentConditions--tempValue--MHmYY",
   ".today-daypart-temp",
   "[data-testid=\"wxTempLabel\"]",
   ".temp",
   ".temperature-value"]

/-- `CONDITION_SELECTORS` from `weather-scraper.service.ts`. -/
def CONDITION_SELECTORS : List String :=
  ["[data-testid=\"WeatherConditions\"]",
   ".CurrentConditions--phraseValue--mZC_p",
   ".today-daypart-wxphrase",
   "[data-testid=\"wxPhrase\"]",
   ".condition",
   ".weather-phrase"]

/-- `CITY_MAPPINGS` from `weather-scraper.service.ts`. -/
def CITY_MAPPINGS : List (String × String) :=
  [("london", "UKXX0085:1:UK"),
   ("birmingham", "UKXX0016:1:UK"),
   ("manchester", "UKXX0095:1:UK"),
   ("glasgow", "UKXX0061:1:UK"),
   ("leeds", "UKXX0084:1:UK")]

/-- `getCityCode`: look the lower-cased name up in `CITY_MAPPINGS`, else
synthesize `NAME.toUpperCase() + ":1:UK"`. -/
def getCityCode (cityName : String) : String :=
  match (CITY_MAPPINGS.find? (fun p => p.1 == jsToLower cityName)) with
  | some p => p.2
  | none => jsToUpper cityName ++ ":1:UK"

/-- The temperature loop body of `extractTemperature` (and of the identical
puppeteer loop in `scrapeWithSession`): for each selector in order, if the
text is non-empty and `parseInt` of the stripped text is a number, return it;
otherwise continue with the remaining selectors. -/
def tempChain (p : Page) : List String → Option Int
  | [] => none
  | sel :: rest =>
      let tempText := p.text sel
      if tempText ≠ "" then
        match parseIntJS (stripNonTempChars tempText) with
        | some n => some n
        | none => tempChain p rest
      else tempChain p rest

/-- `extractTemperature` from `weather-scraper.service.ts`. -/
def extractTemperature (p : Page) : Option Int :=
  tempChain p TEMP_SELECTORS

/-- The condition loop body of `extractCondition`: first selector whose
trimmed text is non-empty wins and is lower-cased; `"unknown"` otherwise. -/
def condChain (p : Page) : List String → String
  | [] => "unknown"
  | sel :: rest =>
      let condText := jsTrim (p.text sel)
      if condText ≠ "" then jsToLower condText else condChain p rest

/-- `extractCondition` from `weather-scraper.service.ts`. -/
def extractCondition (p : Page) : String :=
  condChain p CONDITION_SELECTORS

/-- The `WeatherData` result type (`src/types/weather.types.ts`):
`temperature` is `null` (`none`) when nothing parsed, `scraped_at` is only
set for readings served from the cache. -/
structure WeatherData where
  city : String
  temperature : Option Int
  weather_condition : String
  scraped_at : Option Int := none
deriving DecidableEq, Repr

/-- The scraper's session fields (`sessionCookies`, `isLoggedIn`). -/
structure ScraperSession where
  sessionCookies : Option String
  isLoggedIn : Bool

/-- JS truthiness of `this.isLoggedIn && this.sessionCookies`: logged in and
the cookie string is non-null and non-empty. -/
def sessionTruthy (st : ScraperSession) : Bool :=
  st.isLoggedIn && (match st.sessionCookies with
                    | some s => s ≠ ""
                    | none => false)

/-- The upstream network, keyed by the city code the URL is built from:
each retrieval either throws (`error`, the `FetchFailed` condition) or
yields a page. `auth` is the puppeteer-with-cookies path used by
`scrapeWithSession`; `anon` is the axios path used by `scrapeWithoutLogin`. -/
structure Network where
  auth : String → Except Unit Page
  anon : String → Except Unit Page

/-- `scrapeWithSession`: fetch the city page through the authenticated
browser session and run the two extraction loops; a fetch failure throws. -/
def scrapeWithSession (net : Network) (cityName : String) :
    Except Unit WeatherData :=
  match net.auth (getCityCode cityName) with
  | .error e => .error e
  | .ok p =>
      .ok { city := cityName
            temperature := extractTemperature p
            weather_condition := extractCondition p }

/-- `scrapeWithoutLogin`: fetch the city page with a plain request and run
`extractTemperature` / `extractCondition`; a fetch failure throws. -/
def scrapeWithoutLogin (net : Network) (cityName : String) :
    Except Unit WeatherData :=
  match net.anon (getCityCode cityName) with
  | .error e => .error e
  | .ok p =>
      .ok { city := cityName
            temperature := extractTemperature p
            weather_condition := extractCondition p }

/-- The body of `scrapeCity`'s `try` block: if `this.isLoggedIn &&
this.sessionCookies` then the authenticated path is used, otherwise the
anonymous path. The source reaches `scrapeWithoutLogin` only on the
not-logged-in branch. -/
def scrapeCityBody (st : ScraperSession) (net : Network) (cityName : String) :
    Except Unit WeatherData :=
  if sessionTruthy st then scrapeWithSession net cityName
  else scrapeWithoutLogin net cityName

/-- The sentinel returned by `scrapeCity`'s `catch` block. -/
def unavailableReading (cityName : String) : WeatherData :=
  { city := cityName, temperature := none, weather_condition := "unavailable" }

/-- `scrapeCity`: run the body and convert any exception into the
`temperature = null, condition = "unavailable"` sentinel. -/
def scrapeCity (st : ScraperSession) (net : Network) (cityName : String) :
    WeatherData :=
  match scrapeCityBody st net cityName with
  | .ok r => r
  | .error _ => unavailableReading cityName

/-- One iteration of the `scrapeMultipleCities` loop: the `try` block awaits
`scrapeCity` and pushes the result; the `catch` block would push a
`condition = "error"` sentinel, but `scrapeCity` handles every failure
internally, so the awaited promise is always fulfilled (`Except.ok`). -/
def scrapeManyStep (st : ScraperSession) (net : Network) (city : String) :
    WeatherData :=
  match (Except.ok (scrapeCity st net city) : Except Unit WeatherData) with
  | .ok w => w
  | .error _ => { city := city, temperature := none, weather_condition := "error" }

/-- `scrapeMultipleCities`: sequential loop over the cities, one result pushed
per city. -/
def scrapeMultipleCities (st : ScraperSession) (net : Network) :
    List String → List WeatherData
  | [] => []
  | city :: rest => scrapeManyStep st net city :: scrapeMultipleCities st net rest

example : parseIntJS "15" = some 15 := by decide
example : parseIntJS "-3" = some (-3) := by decide
example : parseIntJS "" = none := by decide
example : parseIntJS "-" = none := by decide
example : stripNonTempChars "15°C" = "15" := by decide
example : jsToLower "Sunny Day" = "sunny day" := by decide
example : jsTrim "  hi " = "hi" := by decide
example : getCityCode "London" = "UKXX0085:1:UK" := by decide
example : getCityCode "Truro" = "TRURO:1:UK" := by decide

/-- A row of the `cities` table (`id INTEGER PRIMARY KEY AUTOINCREMENT`,
`name TEXT UNIQUE`, `country TEXT DEFAULT 'UK'`). -/
structure City where
  id : Nat
  name : String
  country : String
deriving DecidableEq, Repr

/-- A row of the `weather_data` table (`city_id`, `temperature REAL` nullable,
`weather_condition`, `scraped_at DATETIME DEFAULT CURRENT_TIMESTAMP`).
Timestamps are integer seconds. -/
structure WeatherRow where
  city_id : Nat
  temperature : Option Int
  weather_condition : String
  scraped_at : Int
deriving DecidableEq, Repr

/-- A row of the `user_favorites` table (`user_id`, `city_id`,
`UNIQUE(user_id, city_id)`). -/
structure Favorite where
  user_id : Nat
  city_id : Nat
deriving DecidableEq, Repr

/-- The SQLite database state: the three tables used by the favorites
service, plus the next `AUTOINCREMENT` id for `cities`. -/
structure DB where
  cities : List City
  favorites : List Favorite
  weather : List WeatherRow
  nextCityId : Nat
deriving DecidableEq, Repr

/-- `datetime(scraped_at) > datetime('now', '-30 minutes')` for a row:
the reading is strictly younger than 30 minutes (1800 seconds). -/
def isFresh (now : Int) (r : WeatherRow) : Bool :=
  now - 1800 < r.scraped_at

/-- `ORDER BY scraped_at DESC LIMIT 1` over a list of rows: the row with the
greatest `scraped_at`, or `none` on the empty list. -/
def latestRow : List WeatherRow → Option WeatherRow
  | [] => none
  | r :: rest =>
      match latestRow rest with
      | none => some r
      | some m => some (if m.scraped_at > r.scraped_at then m else r)

/-- The cached-weather query of `getFavoriteCities`:
`SELECT * FROM weather_data WHERE city_id = ? AND datetime(scraped_at) >
datetime('now', '-30 minutes') ORDER BY scraped_at DESC LIMIT 1`. -/
def getCachedWeather (db : DB) (now : Int) (cityId : Nat) : Option WeatherRow :=
  latestRow (db.weather.filter (fun r => r.city_id == cityId && isFresh now r))

/-- Lexicographic order on character lists by code point, modelling SQLite's
BINARY collation on the stored names. -/
def charListLe : List Char → List Char → Bool
  | [], _ => true
  | _ :: _, [] => false
  | c :: cs, d :: ds =>
      if c.toNat < d.toNat then true
      else if d.toNat < c.toNat then false
      else charListLe cs ds

/-- String comparison used by the `ORDER BY c.name` model. -/
def strLeB (a b : String) : Bool :=
  charListLe a.data b.data

/-- Insertion step of the `ORDER BY c.name` model. -/
def insertByName (c : City) : List City → List City
  | [] => [c]
  | d :: ds => if strLeB c.name d.name then c :: d :: ds else d :: insertByName c ds

/-- `ORDER BY c.name` (SQLite BINARY collation, ascending) as an insertion
sort on the city name. -/
def sortByName : List City → List City
  | [] => []
  | c :: cs => insertByName c (sortByName cs)

/-- The join `cities c INNER JOIN user_favorites uf ON c.id = uf.city_id
WHERE uf.user_id = ?`: one row per favorite link of the user joined with
every city row carrying that id. -/
def joinFavCities (db : DB) (userId : Nat) : List City :=
  (db.favorites.filter (fun f => f.user_id == userId)).flatMap
    (fun f => db.cities.filter (fun c => c.id == f.city_id))

/-- The `favoriteCities` query of `getFavoriteCities`: the join above with
`ORDER BY c.name`. -/
def userFavoriteCities (db : DB) (userId : Nat) : List City :=
  sortByName (joinFavCities db userId)

/-- Phase 1 of `getFavoriteCities`: walk the favorite cities in name order;
a city with a fresh cached reading contributes that reading to
`weatherResults`, every other city's name is pushed onto `citiesToScrape`. -/
def partitionFavorites (db : DB) (now : Int) :
    List City → List WeatherData × List String
  | [] => ([], [])
  | c :: rest =>
      let (ws, ts) := partitionFavorites db now rest
      match getCachedWeather db now c.id with
      | some r =>
          ({ city := c.name
             temperature := r.temperature
             weather_condition := r.weather_condition
             scraped_at := some r.scraped_at } :: ws, ts)
      | none => (ws, c.name :: ts)

/-- `cacheWeatherData`: insert the reading into `weather_data`; a storage
failure (`writeFails`) is caught and logged, and the database is left as it
was — the method never throws. -/
def cacheWeatherData (db : DB) (writeFails : Bool) (now : Int) (cityId : Nat)
    (w : WeatherData) : DB :=
  if writeFails then db
  else { db with weather := db.weather ++
          [{ city_id := cityId
             temperature := w.temperature
             weather_condition := w.weather_condition
             scraped_at := now }] }

/-- Phase 2 of `getFavoriteCities`: for each freshly scraped reading, find the
favorite city whose name matches case-insensitively; when found, cache the
reading (best effort, per-city `writeFails` oracle) and push it onto the
results. -/
def foldScraped (favs : List City) (writeFails : Nat → Bool) (now : Int) :
    List WeatherData → List WeatherData × DB → List WeatherData × DB
  | [], acc => acc
  | w :: ws, (res, db) =>
      match favs.find? (fun c => jsToLower c.name == jsToLower w.city) with
      | some c =>
          foldScraped favs writeFails now ws
            (res ++ [w], cacheWeatherData db (writeFails c.id) now c.id w)
      | none => foldScraped favs writeFails now ws (res, db)

/-- `getFavoriteCities` from `favorites.service.ts`: load the user's favorite
cities in name order; partition into cache hits and cities to scrape; scrape
the misses in one `scrapeMultipleCities` batch; cache and append the scraped
readings; return the readings together with the resulting database state. -/
def getFavoriteCities (st : ScraperSession) (net : Network)
    (writeFails : Nat → Bool) (db : DB) (now : Int) (userId : Nat) :
    List WeatherData × DB :=
  let favs := userFavoriteCities db userId
  if favs.isEmpty then ([], db)
  else
    let (hits, toScrape) := partitionFavorites db now favs
    if toScrape.isEmpty then (hits, db)
    else
      let fresh := scrapeMultipleCities st net toScrape
      foldScraped favs writeFails now fresh (hits, db)

/-- Failures a statement inside the favorites transaction can raise:
a `UNIQUE` constraint violation or an injected storage failure. -/
inductive DbErr where
  | unique
  | storage
deriving DecidableEq, Repr

/-- `SELECT * FROM cities WHERE LOWER(name) = LOWER(?)`: first city whose
lower-cased name equals the lower-cased key. -/
def ciFindCity (cities : List City) (cityName : String) : Option City :=
  cities.find? (fun c => jsToLower c.name == jsToLower cityName)

/-- One iteration of the `addFavoriteCities` loop for one requested name:
find the city case-insensitively; when absent, `INSERT INTO cities` (which
can hit the injected storage failure `cityInsFail` or the `UNIQUE` constraint
on `cities.name`) and re-select the created row; then `INSERT INTO
user_favorites`, which fails on the `UNIQUE(user_id, city_id)` constraint or
on the injected storage failure `favInsFail`. -/
def addFavStep (userId : Nat) (cityInsFail favInsFail : String → Bool)
    (cityName : String) (db : DB) : Except DbErr DB :=
  let withCity : Except DbErr (City × DB) :=
    match ciFindCity db.cities cityName with
    | some c => .ok (c, db)
    | none =>
        if cityInsFail cityName then .error .storage
        else if db.cities.any (fun c => c.name == cityName) then .error .unique
        else
          let c : City := { id := db.nextCityId, name := cityName, country := "UK" }
          .ok (c, { db with cities := db.cities ++ [c], nextCityId := db.nextCityId + 1 })
  match withCity with
  | .error e => .error e
  | .ok (c, db1) =>
      if db1.favorites.any (fun f => f.user_id == userId && f.city_id == c.id) then
        .error .unique
      else if favInsFail cityName then .error .storage
      else .ok { db1 with favorites := db1.favorites ++ [⟨userId, c.id⟩] }

/-- The `for (const cityName of cityNames)` loop of `addFavoriteCities`:
runs `addFavStep` for each requested name, aborting on the first failure. -/
def addFavLoop (userId : Nat) (cityInsFail favInsFail : String → Bool) :
    List String → DB → Except DbErr DB
  | [], db => .ok db
  | n :: rest, db =>
      match addFavStep userId cityInsFail favInsFail n db with
      | .ok db1 => addFavLoop userId cityInsFail favInsFail rest db1
      | .error e => .error e

/-- `DELETE FROM user_favorites WHERE user_id = ?`, the first statement of
the `addFavoriteCities` transaction. -/
def deleteUserFavs (db : DB) (userId : Nat) : DB :=
  { db with favorites := db.favorites.filter (fun f => !(f.user_id == userId)) }

/-- The transaction body and outcome of `addFavoriteCities`: run the loop on
the deleted-favorites state; `COMMIT` keeps the new state, while a failure
`ROLLBACK`s to the `BEGIN TRANSACTION` snapshot — the input state — and the
`ApiError` is the `Except.error`. -/
def addFavoriteCities (userId : Nat) (cityInsFail favInsFail : String → Bool)
    (cityNames : List String) (db : DB) : Except Unit Unit × DB :=
  match addFavLoop userId cityInsFail favInsFail cityNames (deleteUserFavs db userId) with
  | .ok db1 => (.ok (), db1)
  | .error _ => (.error (), db)

/-- The favorite set of a user in a database state. -/
def userFavSet (db : DB) (userId : Nat) : List Favorite :=
  db.favorites.filter (fun f => f.user_id == userId)

/-- The request body of `POST /v1/favorites` as the validation layer sees it:
either not an array, or an array of strings. -/
inductive FavBody where
  | notArray
  | arr (cities : List String)

/-- The route's Joi schema `cities: Joi.array().items(Joi.string()).min(1)
.max(10).required()` applied by the `validate` middleware.
Modelled from the spec: the generic `validate` middleware file is not under
`src/`; per the spec it rejects a malformed body with a `ValidationError`
before the controller runs. -/
def favBodyPassesJoi : FavBody → Bool
  | .notArray => false
  | .arr cities => 1 ≤ cities.length && cities.length ≤ 10

/-- The controller guard in `addFavorites`
(`!Array.isArray(cities) || cities.length === 0` throws a 400 `ApiError`). -/
def favBodyPassesController : FavBody → Bool
  | .notArray => false
  | .arr cities => !(cities.length == 0)

/-- The validation pipeline an `addFavorites` request passes through before
`favoritesService.addFavoriteCities` is invoked: the route's Joi schema, then
the controller guard. `Except.error ()` is the `ValidationError` (HTTP 400). -/
def validateAddFavorites (body : FavBody) : Except Unit (List String) :=
  if favBodyPassesJoi body then
    match body with
    | .notArray => .error ()
    | .arr cities => if favBodyPassesController body then .ok cities else .error ()
  else .error ()

/-! ### Basic facts about the scraper -/

/-- A successful `scrapeCityBody` result carries the requested city name. -/
theorem scrapeCityBody_city (st : ScraperSession) (net : Network) (c : String)
    (r : WeatherData) (h : scrapeCityBody st net c = Except.ok r) : r.city = c := by
  unfold scrapeCityBody scrapeWithSession scrapeWithoutLogin at h
  by_cases hs : sessionTruthy st
  · rw [if_pos hs] at h
    cases hauth : net.auth (getCityCode c) <;> rw [hauth] at h <;> cases h <;> rfl
  · rw [if_neg hs] at h
    cases hanon : net.anon (getCityCode c) <;> rw [hanon] at h <;> cases h <;> rfl

/-- When the body succeeds, `scrapeCity` returns its result unchanged. -/
theorem scrapeCity_of_ok (st : ScraperSession) (net : Network) (c : String)
    (r : WeatherData) (h : scrapeCityBody st net c = Except.ok r) :
    scrapeCity st net c = r := by
  unfold scrapeCity; rw [h]

/-- When the body throws, `scrapeCity` returns the unavailable sentinel. -/
theorem scrapeCity_of_error (st : ScraperSession) (net : Network) (c : String)
    (e : Unit) (h : scrapeCityBody st net c = Except.error e) :
    scrapeCity st net c = unavailableReading c := by
  unfold scrapeCity; rw [h]

/-- `scrapeCity` always reports the requested city name. -/
theorem scrapeCity_city (st : ScraperSession) (net : Network) (c : String) :
    (scrapeCity st net c).city = c := by
  cases h : scrapeCityBody st net c with
  | ok r => rw [scrapeCity_of_ok st net c r h]; exact scrapeCityBody_city st net c r h
  | error e => rw [scrapeCity_of_error st net c e h]; rfl

/-- The batch loop is pointwise `scrapeCity`. -/
theorem scrapeMultipleCities_eq_map (st : ScraperSession) (net : Network) :
    ∀ cities : List String,
      scrapeMultipleCities st net cities = cities.map (scrapeCity st net)
  | [] => rfl
  | c :: rest => by
      simp [scrapeMultipleCities, scrapeManyStep,
        scrapeMultipleCities_eq_map st net rest]

/-- The city names of a batch result are exactly the input names, in order. -/
theorem scrapeMany_map_city (st : ScraperSession) (net : Network)
    (cities : List String) :
    (scrapeMultipleCities st net cities).map (fun w => w.city) = cities := by
  rw [scrapeMultipleCities_eq_map, List.map_map]
  induction cities with
  | nil => rfl
  | cons c rest ih => simp [ih, scrapeCity_city]

/-- C5: for every input list of N city names, `scrapeMultipleCities` returns
a list of exactly N readings whose i-th entry is the reading for the i-th
input city name (captured by mapping each reading to its city name giving
back the input list), for every N including 0. -/
theorem c5_scrape_many_order_preservation :
    ∀ (st : ScraperSession) (net : Network) (cities : List String),
      (scrapeMultipleCities st net cities).length = cities.length ∧
      (scrapeMultipleCities st net cities).map (fun w => w.city) = cities := by
  intro st net cities
  refine ⟨?_, scrapeMany_map_city st net cities⟩
  have h := congrArg List.length (scrapeMany_map_city st net cities)
  rwa [List.length_map] at h

/-- A page whose first temperature selector and first condition selector
both match with parseable text. -/
def pageSunny : Page :=
  ⟨fun sel =>
    if sel = "[data-testid=\"TemperatureValue\"]" then "15°"
    else if sel = "[data-testid=\"WeatherConditions\"]" then "Sunny"
    else ""⟩

/-- A network on which every authenticated fetch throws and every anonymous
fetch succeeds with `pageSunny`. -/
def netAuthDown : Network :=
  ⟨fun _ => Except.error (), fun _ => Except.ok pageSunny⟩

/-- A session in the Authenticated state (logged in with captured cookies). -/
def stAuth : ScraperSession := ⟨some "sid=abc", true⟩

/-- C1 counterexample: with an Authenticated session whose authenticated
fetch path fails while the anonymous path would succeed (temperature 15,
condition "sunny"), `scrapeCity` returns the unavailable sentinel instead of
falling back to the anonymous path within the same call — so the sentinel is
returned although only one of the two paths has failed. -/
theorem c1_counterexample :
    sessionTruthy stAuth = true ∧
    scrapeWithoutLogin netAuthDown "london" =
      Except.ok { city := "london", temperature := some 15,
                  weather_condition := "sunny" } ∧
    scrapeCity stAuth netAuthDown "london" = unavailableReading "london" ∧
    unavailableReading "london" ≠
      { city := "london", temperature := some 15, weather_condition := "sunny" } := by
  refine ⟨rfl, rfl, rfl, ?_⟩
  decide

/-- C1 amended: when the session manager reports Authenticated, `scrapeCity`
attempts only the authenticated fetch path; its result is determined by that
path alone — extraction of the fetched page on success and the sentinel
reading with `temperature = null, condition = "unavailable"` on any failure,
with no fallback to the anonymous path — and the call never raises. -/
theorem c1_amended_auth_failure_yields_sentinel :
    ∀ (st : ScraperSession) (net : Network) (name : String),
      sessionTruthy st = true →
      scrapeCity st net name =
        (match net.auth (getCityCode name) with
         | Except.ok p =>
             { city := name, temperature := extractTemperature p,
               weather_condition := extractCondition p }
         | Except.error _ => unavailableReading name) := by
  intro st net name h
  unfold scrapeCity scrapeCityBody scrapeWithSession
  rw [if_pos (by simp [h])]
  cases net.auth (getCityCode name) <;> rfl

/-- Witness for the amended C1 at a concrete Authenticated session and a
network whose authenticated path fails. -/
theorem c1_amended_witness :
    sessionTruthy stAuth = true ∧
    scrapeCity stAuth netAuthDown "london" = unavailableReading "london" := by
  refine ⟨by decide, ?_⟩
  rw [c1_amended_auth_failure_yields_sentinel stAuth netAuthDown "london" (by decide)]
  rfl

/-- An anonymous session (never logged in). -/
def stAnon : ScraperSession := ⟨none, false⟩

/-- A network on which the anonymous fetch of Manchester's city code throws
while every other fetch succeeds with `pageSunny`. -/
def netManchesterDown : Network :=
  ⟨fun _ => Except.error (),
   fun code => if code = "UKXX0095:1:UK" then Except.error () else Except.ok pageSunny⟩

/-- C7 counterexample: in the batch London, Manchester, Leeds where only
Manchester's fetch throws, the failed city's sentinel reading has
condition "unavailable" (produced by `scrapeCity`'s own handler), not
"error": the `condition = "error"` conversion in `scrapeMultipleCities` is
not what a fetch failure produces. The other cities still return their own
valid readings. -/
theorem c7_counterexample :
    scrapeMultipleCities stAnon netManchesterDown ["london", "manchester", "leeds"] =
      [{ city := "london", temperature := some 15, weather_condition := "sunny" },
       { city := "manchester", temperature := none, weather_condition := "unavailable" },
       { city := "leeds", temperature := some 15, weather_condition := "sunny" }] ∧
    ("unavailable" : String) ≠ "error" := by
  exact ⟨rfl, by decide⟩

/-- C7 amended: each position of a `scrapeMultipleCities` result is the
`scrapeCity` result for that position's input city alone, so a failure on
one city never affects the others; a city whose fetch path throws yields the
sentinel with `condition = "unavailable"` (the failure is caught inside
`scrapeCity`), and a city whose fetch succeeds yields its own extracted
reading. -/
theorem c7_amended_per_city_isolation :
    ∀ (st : ScraperSession) (net : Network),
      (∀ cities : List String,
        scrapeMultipleCities st net cities = cities.map (scrapeCity st net)) ∧
      (∀ (name : String) (e : Unit),
        scrapeCityBody st net name = Except.error e →
        scrapeCity st net name = unavailableReading name) ∧
      (∀ (name : String) (r : WeatherData),
        scrapeCityBody st net name = Except.ok r →
        scrapeCity st net name = r) := by
  intro st net
  exact ⟨scrapeMultipleCities_eq_map st net,
         fun name e h => scrapeCity_of_error st net name e h,
         fun name r h => scrapeCity_of_ok st net name r h⟩

/-- Witness for the amended C7 on the concrete Manchester-down batch. -/
theorem c7_amended_witness :
    scrapeCity stAnon netManchesterDown "manchester" =
      unavailableReading "manchester" ∧
    scrapeMultipleCities stAnon netManchesterDown ["london", "manchester", "leeds"] =
      ["london", "manchester", "leeds"].map (scrapeCity stAnon netManchesterDown) := by
  exact ⟨(c7_amended_per_city_isolation stAnon netManchesterDown).2.1 "manchester" () rfl,
         (c7_amended_per_city_isolation stAnon netManchesterDown).1
           ["london", "manchester", "leeds"]⟩

/-! ### The extraction strategy chains (C8) -/

/-- The temperature loop is the first selector whose stripped text parses:
a selector with non-empty but unparseable text does not stop the chain. -/
theorem tempChain_eq_findSome (p : Page) :
    ∀ sels : List String,
      tempChain p sels =
        sels.findSome? (fun s => parseIntJS (stripNonTempChars (p.text s)))
  | [] => rfl
  | sel :: rest => by
      unfold tempChain
      by_cases h : p.text sel = ""
      · simp [h, List.findSome?_cons, tempChain_eq_findSome p rest,
          show parseIntJS (stripNonTempChars "") = none from rfl]
      · cases hp : parseIntJS (stripNonTempChars (p.text sel)) with
        | none => simp [h, hp, List.findSome?_cons, tempChain_eq_findSome p rest]
        | some n => simp [h, hp, List.findSome?_cons]

/-- The condition loop is the first selector whose trimmed text is non-empty
(lower-cased), defaulting to "unknown". -/
theorem condChain_eq_findSome (p : Page) :
    ∀ sels : List String,
      condChain p sels =
        (sels.findSome? (fun s =>
          if jsTrim (p.text s) = "" then none
          else some (jsToLower (jsTrim (p.text s))))).getD "unknown"
  | [] => rfl
  | sel :: rest => by
      unfold condChain
      by_cases h : jsTrim (p.text sel) = ""
      · simp [h, List.findSome?_cons, condChain_eq_findSome p rest]
      · simp [h, List.findSome?_cons]

/-- A page on which the first temperature selector yields non-empty but
unparseable text ("N/A" strips to the empty string), the second yields
"15°", and no condition selector matches. -/
def pageTrickyTemp : Page :=
  ⟨fun sel =>
    if sel = "[data-testid=\"TemperatureValue\"]" then "N/A"
    else if sel = ".CurrentConditions--tempValue--MHmYY" then "15°"
    else ""⟩

/-- C8 counterexample: on `pageTrickyTemp` the first selector yields the
non-empty text "N/A", whose stripped form does not parse — under the claim
the first non-empty selector wins and temperature would be `null` — yet
`extractTemperature` moves on to the second selector and returns 15. -/
theorem c8_counterexample :
    pageTrickyTemp.text "[data-testid=\"TemperatureValue\"]" = "N/A" ∧
    ("N/A" : String) ≠ "" ∧
    parseIntJS (stripNonTempChars "N/A") = none ∧
    extractTemperature pageTrickyTemp = some 15 ∧
    (some 15 : Option Int) ≠ none := by
  exact ⟨rfl, by decide, rfl, rfl, by decide⟩

/-- C8 amended: both chains try their selectors in fixed priority order and
degrade without error. For temperature, the winner is the first selector
whose text — after stripping all characters other than digits and the minus
sign — parses as a number; a selector yielding non-empty but unparseable
text is skipped, and temperature is `null` exactly when no selector yields
parseable text. For condition, the winner is the first selector whose
trimmed text is non-empty, lower-cased; condition is "unknown" when no
selector yields non-empty text. -/
theorem c8_amended_extraction_chains :
    ∀ p : Page,
      extractTemperature p =
        TEMP_SELECTORS.findSome?
          (fun s => parseIntJS (stripNonTempChars (p.text s))) ∧
      extractCondition p =
        (CONDITION_SELECTORS.findSome? (fun s =>
          if jsTrim (p.text s) = "" then none
          else some (jsToLower (jsTrim (p.text s))))).getD "unknown" := by
  intro p
  exact ⟨tempChain_eq_findSome p TEMP_SELECTORS,
         condChain_eq_findSome p CONDITION_SELECTORS⟩

/-! ### The weather cache and the freshness window (C4) -/

/-- `latestRow` returns an element of its input list. -/
theorem latestRow_mem : ∀ (l : List WeatherRow) (r : WeatherRow),
    latestRow l = some r → r ∈ l
  | [], r => by intro h; cases h
  | r0 :: rest, r => by
      intro h
      unfold latestRow at h
      cases hrest : latestRow rest with
      | none => rw [hrest] at h; cases h; exact List.mem_cons_self r0 rest
      | some m =>
          rw [hrest] at h
          dsimp only at h
          by_cases hgt : m.scraped_at > r0.scraped_at
          · rw [if_pos hgt] at h
            have hm := Option.some.inj h
            rw [← hm]
            exact List.mem_cons_of_mem r0 (latestRow_mem rest m hrest)
          · rw [if_neg hgt] at h
            have hm := Option.some.inj h
            rw [← hm]
            exact List.mem_cons_self r0 rest

/-- `latestRow` is `none` exactly on the empty list. -/
theorem latestRow_eq_none : ∀ l : List WeatherRow, latestRow l = none ↔ l = []
  | [] => by simp [latestRow]
  | r0 :: rest => by
      unfold latestRow
      cases hrest : latestRow rest with
      | none => simp
      | some m => by_cases hgt : m.scraped_at > r0.scraped_at <;> simp [hgt]

/-- A cached reading returned by the freshness query is a stored row for the
requested city that is strictly younger than 30 minutes. -/
theorem getCachedWeather_fresh (db : DB) (now : Int) (cid : Nat)
    (r : WeatherRow) (h : getCachedWeather db now cid = some r) :
    r ∈ db.weather ∧ r.city_id = cid ∧ now - r.scraped_at < 1800 := by
  unfold getCachedWeather at h
  have hmem := latestRow_mem _ r h
  rw [List.mem_filter] at hmem
  obtain ⟨hw, hp⟩ := hmem
  rw [Bool.and_eq_true] at hp
  obtain ⟨hcid, hfresh⟩ := hp
  refine ⟨hw, by simpa using hcid, ?_⟩
  unfold isFresh at hfresh
  rw [decide_eq_true_eq] at hfresh
  omega

/-- The freshness query succeeds exactly when some stored row for the city is
strictly younger than 30 minutes. -/
theorem getCachedWeather_isSome (db : DB) (now : Int) (cid : Nat) :
    (getCachedWeather db now cid).isSome = true ↔
      ∃ r, r ∈ db.weather ∧ r.city_id = cid ∧ now - r.scraped_at < 1800 := by
  constructor
  · intro h
    rw [Option.isSome_iff_exists] at h
    obtain ⟨r, hr⟩ := h
    exact ⟨r, getCachedWeather_fresh db now cid r hr⟩
  · rintro ⟨r, hw, hcid, hage⟩
    have hfil : r ∈ db.weather.filter
        (fun q => q.city_id == cid && isFresh now q) := by
      rw [List.mem_filter]
      refine ⟨hw, ?_⟩
      rw [Bool.and_eq_true]
      refine ⟨by simpa using hcid, ?_⟩
      unfold isFresh
      rw [decide_eq_true_eq]
      omega
    have hne : db.weather.filter (fun q => q.city_id == cid && isFresh now q) ≠ [] :=
      List.ne_nil_of_mem hfil
    unfold getCachedWeather
    cases hl : latestRow (db.weather.filter (fun q => q.city_id == cid && isFresh now q)) with
    | none => exact absurd ((latestRow_eq_none _).mp hl) hne
    | some m => rfl

/-- The cache-hit reading built from a favorite city, when its freshness
query succeeds. -/
def cachedReading (db : DB) (now : Int) (c : City) : Option WeatherData :=
  (getCachedWeather db now c.id).map (fun r =>
    { city := c.name
      temperature := r.temperature
      weather_condition := r.weather_condition
      scraped_at := some r.scraped_at })

/-- Closed form of phase 1 of `getFavoriteCities`: the cache hits in input
order, and the names of the remaining cities in input order. -/
theorem partitionFavorites_eq (db : DB) (now : Int) :
    ∀ favs : List City,
      partitionFavorites db now favs =
        (favs.filterMap (cachedReading db now),
         (favs.filter (fun c => (getCachedWeather db now c.id).isNone)).map City.name)
  | [] => rfl
  | c :: rest => by
      unfold partitionFavorites
      rw [partitionFavorites_eq db now rest]
      cases h : getCachedWeather db now c.id with
      | none => simp [cachedReading, h, List.filterMap_cons]
      | some r => simp [cachedReading, h, List.filterMap_cons]

/-- C4: a cached reading satisfies a favorites read exactly when it is
strictly younger than 30 minutes. First conjunct: any reading served from the
cache is a stored row for the requested city with `now - scraped_at < 1800`
seconds, so a stale reading is never returned. Second conjunct: the cache
query succeeds iff such a strictly-fresh row exists (so a reading aged
29m59s is served and one aged 30m01s is not). Third conjunct: exactly the
favorite cities whose freshness query fails are pushed onto the list that is
re-scraped. -/
theorem c4_freshness_window :
    (∀ (db : DB) (now : Int) (cid : Nat) (r : WeatherRow),
      getCachedWeather db now cid = some r →
        r ∈ db.weather ∧ r.city_id = cid ∧ now - r.scraped_at < 1800) ∧
    (∀ (db : DB) (now : Int) (cid : Nat),
      (getCachedWeather db now cid).isSome = true ↔
        ∃ r, r ∈ db.weather ∧ r.city_id = cid ∧ now - r.scraped_at < 1800) ∧
    (∀ (db : DB) (now : Int) (favs : List City),
      (partitionFavorites db now favs).2 =
        (favs.filter (fun c => (getCachedWeather db now c.id).isNone)).map City.name) := by
  refine ⟨getCachedWeather_fresh, getCachedWeather_isSome, ?_⟩
  intro db now favs
  rw [partitionFavorites_eq db now favs]

/-- A database holding one London reading observed 29 minutes 59 seconds
before time 100000. -/
def dbFresh1799 : DB :=
  { cities := [⟨1, "London", "UK"⟩]
    favorites := [⟨7, 1⟩]
    weather := [⟨1, some 15, "sunny", 98201⟩]
    nextCityId := 2 }

/-- A database holding one London reading observed 30 minutes 1 second
before time 100000. -/
def dbStale1801 : DB :=
  { cities := [⟨1, "London", "UK"⟩]
    favorites := [⟨7, 1⟩]
    weather := [⟨1, some 15, "sunny", 98199⟩]
    nextCityId := 2 }

/-- Witness for C4 at the freshness boundary: the 29m59s-old reading is
served from the cache (and the theorem certifies it is strictly fresh),
while the 30m01s-old reading is not served and its city is pushed onto the
re-scrape list. -/
theorem c4_freshness_window_witness :
    ((100000 : Int) - 98201 < 1800) ∧
    (getCachedWeather dbFresh1799 100000 1).isSome = true ∧
    (getCachedWeather dbStale1801 100000 1).isSome = false ∧
    (partitionFavorites dbStale1801 100000 [⟨1, "London", "UK"⟩]).2 = ["London"] := by
  refine ⟨(c4_freshness_window.1 dbFresh1799 100000 1 ⟨1, some 15, "sunny", 98201⟩ rfl).2.2,
          rfl, rfl, ?_⟩
  rw [c4_freshness_window.2.2 dbStale1801 100000 [⟨1, "London", "UK"⟩]]
  rfl

/-! ### The favorites read path (C2, C9) -/

/-- Closed form of phase 2 of `getFavoriteCities`: the readings whose city
name matches some favorite case-insensitively are appended, in order, after
the accumulated results; the cache writes do not influence the readings. -/
theorem foldScraped_fst (favs : List City) (wf : Nat → Bool) (now : Int) :
    ∀ (ws : List WeatherData) (res : List WeatherData) (db : DB),
      (foldScraped favs wf now ws (res, db)).1 =
        res ++ ws.filter (fun w =>
          (favs.find? (fun c => jsToLower c.name == jsToLower w.city)).isSome)
  | [], res, db => by simp [foldScraped]
  | w :: ws, res, db => by
      unfold foldScraped
      cases hf : favs.find? (fun c => jsToLower c.name == jsToLower w.city) with
      | some c =>
          rw [foldScraped_fst favs wf now ws (res ++ [w]) _]
          simp [List.filter_cons, hf]
      | none =>
          rw [foldScraped_fst favs wf now ws res db]
          simp [List.filter_cons, hf]

/-- The city names of the cache-hit readings are the names of the favorite
cities whose freshness query succeeded, in order. -/
theorem hits_map_city (db : DB) (now : Int) :
    ∀ favs : List City,
      (favs.filterMap (cachedReading db now)).map (fun w => w.city) =
        (favs.filter (fun c => (getCachedWeather db now c.id).isSome)).map City.name
  | [] => rfl
  | c :: rest => by
      cases h : getCachedWeather db now c.id with
      | none => simp [List.filterMap_cons, cachedReading, h, hits_map_city db now rest]
      | some r => simp [List.filterMap_cons, cachedReading, h, hits_map_city db now rest]

/-- Every scraped reading's city name matches a favorite city
case-insensitively, so the `find?` lookup of phase 2 succeeds for it. -/
theorem find_of_mem_missNames (db : DB) (now : Int) (favs : List City)
    (name : String)
    (h : name ∈ (favs.filter
        (fun c => (getCachedWeather db now c.id).isNone)).map City.name) :
    (favs.find? (fun c => jsToLower c.name == jsToLower name)).isSome = true := by
  rw [List.mem_map] at h
  obtain ⟨c, hc, hname⟩ := h
  rw [List.find?_isSome]
  exact ⟨c, List.mem_of_mem_filter hc, by simp [hname]⟩

/-- Closed form of the readings returned by `getFavoriteCities`: the cache
hits of the name-ordered favorite list, followed by the batch-scrape results
for the remaining names — independent of the cache-write oracle. -/
theorem getFavoriteCities_fst (st : ScraperSession) (net : Network)
    (wf : Nat → Bool) (db : DB) (now : Int) (userId : Nat) :
    (getFavoriteCities st net wf db now userId).1 =
      (userFavoriteCities db userId).filterMap (cachedReading db now) ++
        scrapeMultipleCities st net
          (((userFavoriteCities db userId).filter
            (fun c => (getCachedWeather db now c.id).isNone)).map City.name) := by
  unfold getFavoriteCities
  by_cases h1 : (userFavoriteCities db userId).isEmpty
  · rw [List.isEmpty_iff] at h1
    simp [h1, scrapeMultipleCities]
  · rw [Bool.not_eq_true] at h1
    rw [if_neg (by simp [h1])]
    rw [partitionFavorites_eq db now (userFavoriteCities db userId)]
    dsimp only
    by_cases h2 : (((userFavoriteCities db userId).filter
        (fun c => (getCachedWeather db now c.id).isNone)).map City.name).isEmpty
    · rw [if_pos h2]
      rw [List.isEmpty_iff] at h2
      rw [h2]
      simp [scrapeMultipleCities]
    · rw [if_neg h2]
      rw [foldScraped_fst]
      congr 1
      rw [List.filter_eq_self]
      intro w hw
      apply find_of_mem_missNames db now (userFavoriteCities db userId) w.city
      have hmem := List.mem_map_of_mem (fun x => x.city) hw
      rwa [scrapeMany_map_city] at hmem

/-- C2 amended: `getFavoriteCities` returns exactly one reading per favorite
city — the multiset of returned city names is exactly the favorite names
(second conjunct) — but the order is: all cache-hit readings in canonical
name order first, followed by all freshly-scraped readings in canonical name
order, not the interleaved canonical name order. -/
theorem c2_amended_output_names_partition_order :
    ∀ (st : ScraperSession) (net : Network) (wf : Nat → Bool) (db : DB)
      (now : Int) (userId : Nat),
      ((getFavoriteCities st net wf db now userId).1).map (fun w => w.city) =
        ((userFavoriteCities db userId).filter
          (fun c => (getCachedWeather db now c.id).isSome)).map City.name ++
        ((userFavoriteCities db userId).filter
          (fun c => (getCachedWeather db now c.id).isNone)).map City.name ∧
      List.Perm
        (((getFavoriteCities st net wf db now userId).1).map (fun w => w.city))
        ((userFavoriteCities db userId).map City.name) := by
  intro st net wf db now userId
  have hmain :
      ((getFavoriteCities st net wf db now userId).1).map (fun w => w.city) =
        ((userFavoriteCities db userId).filter
          (fun c => (getCachedWeather db now c.id).isSome)).map City.name ++
        ((userFavoriteCities db userId).filter
          (fun c => (getCachedWeather db now c.id).isNone)).map City.name := by
    rw [getFavoriteCities_fst, List.map_append, hits_map_city, scrapeMany_map_city]
  refine ⟨hmain, ?_⟩
  rw [hmain]
  have hperm := List.filter_append_perm
    (fun c => (getCachedWeather db now c.id).isSome) (userFavoriteCities db userId)
  have hneg : ((userFavoriteCities db userId).filter
      (fun c => !(getCachedWeather db now c.id).isSome)) =
      ((userFavoriteCities db userId).filter
      (fun c => (getCachedWeather db now c.id).isNone)) := by
    apply List.filter_congr
    intro c _
    cases getCachedWeather db now c.id <;> rfl
  rw [hneg] at hperm
  have := hperm.map City.name
  rwa [List.map_append] at this

/-- Favorites of user 7: Aberdeen (no cached reading, must be scraped) and
Birmingham (cached 100 seconds ago). -/
def dbTwoCities : DB :=
  { cities := [⟨1, "Aberdeen", "UK"⟩, ⟨2, "Birmingham", "UK"⟩]
    favorites := [⟨7, 1⟩, ⟨7, 2⟩]
    weather := [⟨2, some 10, "cloudy", 9900⟩]
    nextCityId := 3 }

/-- A network whose anonymous path always succeeds with `pageSunny` and whose
authenticated path always fails. -/
def netAnonUp : Network :=
  ⟨fun _ => Except.error (), fun _ => Except.ok pageSunny⟩

/-- C2 counterexample: with favorites Aberdeen (cache miss) and Birmingham
(cache hit), the returned readings are ordered Birmingham then Aberdeen —
the cache-hit partition first — while the canonical name order of the
favorite cities is Aberdeen then Birmingham; the output ordering therefore
depends on the partition, contradicting the claim. -/
theorem c2_counterexample :
    ((getFavoriteCities stAnon netAnonUp (fun _ => false) dbTwoCities 10000 7).1).map
        (fun w => w.city) = ["Birmingham", "Aberdeen"] ∧
    (userFavoriteCities dbTwoCities 7).map City.name = ["Aberdeen", "Birmingham"] ∧
    (["Birmingham", "Aberdeen"] : List String) ≠ ["Aberdeen", "Birmingham"] := by
  refine ⟨by decide, by decide, by decide⟩

/-- C9: a failing cache write is absorbed — `cacheWeatherData` leaves the
database unchanged and returns normally — and the readings returned by the
surrounding `getFavoriteCities` read path are identical under any two
cache-write failure oracles; in particular the full list is still returned
when every write fails. -/
theorem c9_cache_write_failure_swallowed :
    (∀ (db : DB) (now : Int) (cid : Nat) (w : WeatherData),
      cacheWeatherData db true now cid w = db) ∧
    (∀ (st : ScraperSession) (net : Network) (f g : Nat → Bool) (db : DB)
      (now : Int) (userId : Nat),
      (getFavoriteCities st net f db now userId).1 =
        (getFavoriteCities st net g db now userId).1) := by
  refine ⟨fun db now cid w => rfl, ?_⟩
  intro st net f g db now userId
  rw [getFavoriteCities_fst st net f, getFavoriteCities_fst st net g]

/-! ### Favorite-set request validation (C3) -/

/-- C3: an `addFavorites` request whose body is a list of city names passes
validation exactly when the list is non-empty and has at most 10 entries;
an empty list or a list of more than 10 names is rejected with a
`ValidationError`, and a body that is not an array is rejected as well. -/
theorem c3_validation_bounds :
    (∀ cities : List String,
      (validateAddFavorites (FavBody.arr cities)).isOk = true ↔
        (1 ≤ cities.length ∧ cities.length ≤ 10)) ∧
    (validateAddFavorites FavBody.notArray).isOk = false := by
  refine ⟨?_, rfl⟩
  intro cities
  unfold validateAddFavorites favBodyPassesJoi favBodyPassesController
  by_cases h1 : 1 ≤ cities.length
  · by_cases h2 : cities.length ≤ 10
    · have h0 : (cities.length == 0) = false := beq_eq_false_iff_ne.mpr (by omega)
      simp [h1, h2, h0, Except.isOk, Except.toBool]
    · simp [h1, h2, Except.isOk, Except.toBool]
  · simp [h1, Except.isOk, Except.toBool]

/-- Witness for C3: a one-element list passes validation, the empty list and
an eleven-element list are rejected. -/
theorem c3_validation_bounds_witness :
    (validateAddFavorites (FavBody.arr ["London"])).isOk = true ∧
    (validateAddFavorites (FavBody.arr [])).isOk = false ∧
    (validateAddFavorites (FavBody.arr ["a", "b", "c", "d", "e", "f", "g", "h",
      "i", "j", "k"])).isOk = false := by
  refine ⟨(c3_validation_bounds.1 ["London"]).mpr (by decide), ?_, ?_⟩
  · rw [Bool.eq_false_iff]
    intro hcon
    have := (c3_validation_bounds.1 []).mp hcon
    simp at this
  · rw [Bool.eq_false_iff]
    intro hcon
    have := (c3_validation_bounds.1 ["a", "b", "c", "d", "e", "f", "g", "h",
      "i", "j", "k"]).mp hcon
    simp at this

/-! ### The favorites transaction (C6, C10) -/

/-- C6: whenever any statement inside the `addFavoriteCities` loop fails —
a city insert, a favorite-link insert, or a constraint violation — the
transaction is rolled back: the call returns the error and the database
(in particular the user's favorite set) equals its pre-call state, never a
partial set. -/
theorem c6_add_favorites_atomic_rollback :
    ∀ (userId : Nat) (cif fif : String → Bool) (names : List String) (db : DB)
      (e : DbErr),
      addFavLoop userId cif fif names (deleteUserFavs db userId) = Except.error e →
      addFavoriteCities userId cif fif names db = (Except.error (), db) ∧
      userFavSet (addFavoriteCities userId cif fif names db).2 userId =
        userFavSet db userId := by
  intro userId cif fif names db e h
  unfold addFavoriteCities
  rw [h]
  exact ⟨rfl, rfl⟩

/-- A database in which user 7 already has one favorite (city 1). -/
def dbPrior : DB :=
  { cities := [⟨1, "London", "UK"⟩]
    favorites := [⟨7, 1⟩]
    weather := []
    nextCityId := 2 }

/-- Witness for C6: replacing user 7's favorites with three new cities where
the third favorite-link insert fails leaves the favorite set exactly as it
was before the call (still only city 1), and surfaces the error. -/
theorem c6_add_favorites_atomic_rollback_witness :
    addFavoriteCities 7 (fun _ => false) (fun n => n == "Hull")
      ["Leeds", "York", "Hull"] dbPrior = (Except.error (), dbPrior) ∧
    userFavSet dbPrior 7 = [⟨7, 1⟩] := by
  refine ⟨(c6_add_favorites_atomic_rollback 7 (fun _ => false) (fun n => n == "Hull")
    ["Leeds", "York", "Hull"] dbPrior DbErr.storage rfl).1, rfl⟩

/-- A transaction state in which the first case-insensitive match for `key`
among the city rows is already linked as a favorite of the user: inserting a
favorite for any name lowering to `key` must now violate
`UNIQUE(user_id, city_id)`. -/
def favKeyBad (userId : Nat) (db : DB) (key : String) : Prop :=
  ∃ c, db.cities.find? (fun c => jsToLower c.name == key) = some c ∧
       db.favorites.any (fun f => f.user_id == userId && f.city_id == c.id) = true

/-- Case analysis of a successful `addFavStep`. -/
theorem addFavStep_ok_cases (userId : Nat) (cif fif : String → Bool)
    (n : String) (db db' : DB)
    (h : addFavStep userId cif fif n db = Except.ok db') :
    (∃ c, ciFindCity db.cities n = some c ∧
          db'.cities = db.cities ∧
          db'.favorites = db.favorites ++ [⟨userId, c.id⟩]) ∨
    (∃ c, ciFindCity db.cities n = none ∧
          c = City.mk db.nextCityId n "UK" ∧
          db'.cities = db.cities ++ [c] ∧
          db'.favorites = db.favorites ++ [⟨userId, c.id⟩]) := by
  unfold addFavStep at h
  cases hfind : ciFindCity db.cities n with
  | some c =>
      rw [hfind] at h
      dsimp only at h
      by_cases hany : db.favorites.any (fun f => f.user_id == userId && f.city_id == c.id) = true
      · rw [if_pos hany] at h; cases h
      · rw [if_neg hany] at h
        by_cases hf : fif n = true
        · rw [if_pos hf] at h; cases h
        · rw [if_neg hf] at h
          have hdb := Except.ok.inj h
          exact Or.inl ⟨c, rfl, by rw [← hdb], by rw [← hdb]⟩
  | none =>
      rw [hfind] at h
      dsimp only at h
      by_cases hc : cif n = true
      · rw [if_pos hc] at h; cases h
      · rw [if_neg hc] at h
        by_cases hcs : db.cities.any (fun c => c.name == n) = true
        · rw [if_pos hcs] at h; cases h
        · rw [if_neg hcs] at h
          dsimp only at h
          by_cases hany : db.favorites.any
              (fun f => f.user_id == userId && f.city_id == db.nextCityId) = true
          · rw [if_pos hany] at h; cases h
          · rw [if_neg hany] at h
            by_cases hf : fif n = true
            · rw [if_pos hf] at h; cases h
            · rw [if_neg hf] at h
              have hdb := Except.ok.inj h
              exact Or.inr ⟨City.mk db.nextCityId n "UK", rfl, rfl,
                by rw [← hdb], by rw [← hdb]⟩

/-- When the first case-insensitive match for the processed name is already a
favorite, the step fails with the `UNIQUE(user_id, city_id)` violation. -/
theorem addFavStep_error_of_bad (userId : Nat) (cif fif : String → Bool)
    (n : String) (db : DB) (h : favKeyBad userId db (jsToLower n)) :
    addFavStep userId cif fif n db = Except.error DbErr.unique := by
  obtain ⟨c, hfind, hany⟩ := h
  unfold addFavStep ciFindCity
  rw [hfind]
  dsimp only
  rw [if_pos hany]

/-- A successful step preserves `favKeyBad` for every key: city rows are
only appended (so the first match is unchanged) and favorite links are only
added. -/
theorem favKeyBad_preserved (userId : Nat) (cif fif : String → Bool)
    (n : String) (db db' : DB) (key : String)
    (hbad : favKeyBad userId db key)
    (h : addFavStep userId cif fif n db = Except.ok db') :
    favKeyBad userId db' key := by
  obtain ⟨c0, hf0, ha0⟩ := hbad
  rcases addFavStep_ok_cases userId cif fif n db db' h with
    ⟨c1, _, hcities, hfavs⟩ | ⟨c1, _, _, hcities, hfavs⟩
  · exact ⟨c0, by rw [hcities]; exact hf0,
      by rw [hfavs, List.any_append, ha0]; rfl⟩
  · refine ⟨c0, ?_, by rw [hfavs, List.any_append, ha0]; rfl⟩
    rw [hcities, List.find?_append, hf0]
    rfl

/-- After a successful step for a name, the state is `favKeyBad` for that
name's lowered key: the step's city (found or created) is the first
case-insensitive match and its favorite link now exists. -/
theorem favKeyBad_established (userId : Nat) (cif fif : String → Bool)
    (n : String) (db db' : DB)
    (h : addFavStep userId cif fif n db = Except.ok db') :
    favKeyBad userId db' (jsToLower n) := by
  rcases addFavStep_ok_cases userId cif fif n db db' h with
    ⟨c, hfind, hcities, hfavs⟩ | ⟨c, hfind, hc, hcities, hfavs⟩
  · refine ⟨c, ?_, ?_⟩
    · rw [hcities]
      unfold ciFindCity at hfind
      exact hfind
    · rw [hfavs, List.any_append]
      simp
  · refine ⟨c, ?_, ?_⟩
    · rw [hcities, List.find?_append]
      unfold ciFindCity at hfind
      rw [hfind, Option.none_or]
      have hpc : (jsToLower c.name == jsToLower n) = true := by
        simp [hc]
      simp [List.find?, hpc]
    · rw [hfavs, List.any_append]
      simp

/-- Once the state is `favKeyBad` for a key and a later requested name lowers
to that key, the remaining loop must fail. -/
theorem addFavLoop_error_of_bad (userId : Nat) (cif fif : String → Bool) :
    ∀ (names : List String) (db : DB) (key : String),
      favKeyBad userId db key → (∃ m ∈ names, jsToLower m = key) →
      ∃ e, addFavLoop userId cif fif names db = Except.error e
  | [], db, key => by
      intro _ hm
      obtain ⟨m, hmem, _⟩ := hm
      cases hmem
  | n :: rest, db, key => by
      intro hbad hm
      cases hstep : addFavStep userId cif fif n db with
      | error e =>
          exact ⟨e, by unfold addFavLoop; rw [hstep]⟩
      | ok db1 =>
          obtain ⟨m, hmem, hkey⟩ := hm
          rcases List.mem_cons.mp hmem with hmn | hmrest
          · rw [hmn] at hkey
            rw [← hkey] at hbad
            rw [addFavStep_error_of_bad userId cif fif n db hbad] at hstep
            cases hstep
          · have hbad1 := favKeyBad_preserved userId cif fif n db db1 key hbad hstep
            obtain ⟨e, he⟩ := addFavLoop_error_of_bad userId cif fif rest db1 key
              hbad1 ⟨m, hmrest, hkey⟩
            exact ⟨e, by unfold addFavLoop; rw [hstep]; exact he⟩

/-- A requested name list containing two names that agree after lower-casing
makes the `addFavoriteCities` loop fail from any starting state. -/
theorem addFavLoop_error_of_dup (userId : Nat) (cif fif : String → Bool) :
    ∀ (names : List String) (db : DB),
      ¬ (names.map jsToLower).Nodup →
      ∃ e, addFavLoop userId cif fif names db = Except.error e
  | [], db => by
      intro h
      exact absurd List.nodup_nil h
  | n :: rest, db => by
      intro h
      cases hstep : addFavStep userId cif fif n db with
      | error e =>
          exact ⟨e, by unfold addFavLoop; rw [hstep]⟩
      | ok db1 =>
          by_cases hmem : jsToLower n ∈ rest.map jsToLower
          · have hbad := favKeyBad_established userId cif fif n db db1 hstep
            obtain ⟨m, hmrest, hkey⟩ := List.mem_map.mp hmem
            obtain ⟨e, he⟩ := addFavLoop_error_of_bad userId cif fif rest db1
              (jsToLower n) hbad ⟨m, hmrest, hkey⟩
            exact ⟨e, by unfold addFavLoop; rw [hstep]; exact he⟩
          · have hrest : ¬ (rest.map jsToLower).Nodup := by
              intro hc
              exact h (by rw [List.map_cons, List.nodup_cons]; exact ⟨hmem, hc⟩)
            obtain ⟨e, he⟩ := addFavLoop_error_of_dup userId cif fif rest db1 hrest
            exact ⟨e, by unfold addFavLoop; rw [hstep]; exact he⟩

/-- C10: when the requested city-name list contains two names that are equal
case-insensitively, both resolve to the same city row, the second
favorite-link insert violates `UNIQUE(user_id, city_id)`, the transaction is
rolled back, and the call raises: the returned state is exactly the pre-call
database, so the user's prior favorite set is preserved and no partial set
is stored. -/
theorem c10_duplicate_names_rollback :
    ∀ (db : DB) (userId : Nat) (cif fif : String → Bool) (names : List String),
      ¬ (names.map jsToLower).Nodup →
      addFavoriteCities userId cif fif names db = (Except.error (), db) := by
  intro db userId cif fif names h
  obtain ⟨e, he⟩ := addFavLoop_error_of_dup userId cif fif names
    (deleteUserFavs db userId) h
  unfold addFavoriteCities
  rw [he]

/-- Witness for C10: the request ["London", "LONDON"] for user 7 on the
prior database fails and leaves the database — including user 7's existing
favorite — untouched. -/
theorem c10_duplicate_names_rollback_witness :
    addFavoriteCities 7 (fun _ => false) (fun _ => false) ["London", "LONDON"]
      dbPrior = (Except.error (), dbPrior) ∧
    userFavSet dbPrior 7 = [⟨7, 1⟩] := by
  refine ⟨c10_duplicate_names_rollback dbPrior 7 (fun _ => false) (fun _ => false)
    ["London", "LONDON"] (by decide), rfl⟩
